import Mathlib

/-!
Shallow embedding of the episode-processing and download-orchestration
pipeline of the animecix_scraper repository (src/services.py, with the job
record created in src/main.py).  Collaborators that do I/O (the scraper's
`get_anime_details` / `get_video_source`, the HTTP layer inside
`download_file`, the filesystem, and `json.dump`) are modelled as explicit
oracle parameters returning `Except String _`, mirroring the fact that each
of them either returns a value or raises an exception carrying a
description string (which, as for any Python exception, may be empty).
-/

namespace Animecix

/-- The characters removed by `_sanitize_filename` (src/services.py:35). -/
def badChars : List Char := ['<', '>', ':', '"', '/', '\\', '|', '?', '*']

/-- One step of `_sanitize_filename`: Python's `name.replace(char, '')` for a
single character removes every occurrence of that character. -/
def removeChar (c : Char) (l : List Char) : List Char :=
  l.filter (fun x => x ≠ c)

/-- The character-list core of `_sanitize_filename` (src/services.py:34-37):
the for-loop applies `replace(char, '')` successively for each bad char. -/
def sanitizeChars (l : List Char) : List Char :=
  badChars.foldl (fun acc c => removeChar c acc) l

/-- `_sanitize_filename` (src/services.py:34-37). -/
def sanitizeFilename (s : String) : String :=
  ⟨sanitizeChars s.data⟩

/-- Python `str.strip()` whitespace set (ASCII part). -/
def pyIsSpace (c : Char) : Bool :=
  c == ' ' || c == '\t' || c == '\n' || c == '\r' || c == '\x0b' || c == '\x0c'

/-- Python `str.strip()`: drop leading and trailing whitespace. -/
def pyStrip (s : String) : String :=
  ⟨((s.data.dropWhile pyIsSpace).reverse.dropWhile pyIsSpace).reverse⟩

/-- `details.get("title", "Unknown").replace("/", "-").strip()`
(src/services.py:44): the title used for the per-title directory. -/
def computeAnimeTitle (title : String) : String :=
  pyStrip ⟨title.data.map (fun c => if c = '/' then '-' else c)⟩

/-- An Episode Reference: the dict appended to `all_episodes`
(src/services.py:48-50), with the keys `process_episode` reads. -/
structure EpisodeRef where
  season : String
  number : String
  url : String
deriving DecidableEq

/-- An Outcome Record: the dict returned by `process_episode`
(src/services.py:60-95).  A field is `none` exactly when the corresponding
key is absent from the returned dict on that code path. -/
structure OutcomeRecord where
  series : Option String := none
  season : String
  episode : String
  pageUrl : Option String := none
  videoUrl : Option String := none
  filename : Option String := none
  localPath : Option String := none
  status : String
  error : Option String := none
deriving DecidableEq

/-- The job status strings stored in `tasks[task_id]["status"]`. -/
inductive Status where
  | pending
  | processing
  | completed
  | failed
deriving DecidableEq

/-- The Job State: the `tasks[task_id]` dict (created in src/main.py with
`status = "pending"`, mutated by `scrape_all_episodes_task`).  A field is
`none` while the corresponding key has not been written. -/
structure JobState where
  status : Status
  animeTitle : Option String := none
  totalEpisodes : Option Nat := none
  processed : Option Nat := none
  results : Option (List OutcomeRecord) := none
  error : Option String := none
deriving DecidableEq

/-- One season dict, with the `episodes` key read at src/services.py:47-49. -/
structure Season where
  episodes : List EpisodeRef
deriving DecidableEq

/-- The details dict returned by `scraper.get_anime_details`; `title` and
`seasons` are read with `.get` and a default. -/
structure Details where
  title : Option String := none
  seasons : List Season := []
deriving DecidableEq

/-- `f"Season {ep['season']}"` (src/services.py:71). -/
def seasonDirOf (ep : EpisodeRef) : String :=
  "Season " ++ ep.season

/-- `_sanitize_filename(f"{anime_title} - S{ep['season']}E{ep['number']}.mp4")`
(src/services.py:72-73). -/
def episodeFilename (animeTitle : String) (ep : EpisodeRef) : String :=
  sanitizeFilename (animeTitle ++ " - S" ++ ep.season ++ "E" ++ ep.number ++ ".mp4")

/-- `os.path.join` on relative components (none of the joined components
here can start with a separator, so posix join is plain interleaving). -/
def pathJoin (parts : List String) : String :=
  String.intercalate "/" parts

/-- `os.path.join("data", anime_title, season_dir, filename)`
(src/services.py:74). -/
def episodeFilePath (animeTitle : String) (ep : EpisodeRef) : String :=
  pathJoin ["data", animeTitle, seasonDirOf ep, episodeFilename animeTitle ep]

/-- `process_episode` (src/services.py:60-95).  `resolver` models
`scraper.get_video_source` (returns an optional URL or raises), `transferer`
models the awaited download call (returns a bool; a raise from inside the
`try` is also modelled, and is caught by the same `except`).  Every code
path of the Python function returns a dict; correspondingly this embedding
is a total function. -/
def processEpisode (resolver : String → Except String (Option String))
    (transferer : String → String → Except String Bool)
    (animeTitle : String) (ep : EpisodeRef) : OutcomeRecord :=
  match resolver ep.url with
  | .error e =>
      { season := ep.season, episode := ep.number, error := some e, status := "error" }
  | .ok none =>
      { season := ep.season, episode := ep.number,
        error := some "Video URL not found", status := "failed" }
  | .ok (some videoUrl) =>
      match transferer videoUrl (episodeFilePath animeTitle ep) with
      | .error e =>
          { season := ep.season, episode := ep.number, error := some e, status := "error" }
      | .ok success =>
          { series := some animeTitle, season := ep.season, episode := ep.number,
            pageUrl := some ep.url, videoUrl := some videoUrl,
            filename := some (episodeFilename animeTitle ep),
            localPath := some (episodeFilePath animeTitle ep),
            status := if success then "downloaded" else "download_failed" }

/-- Fuel-indexed body of the batching loop
`for i in range(0, len(all_episodes), batch_size)` with
`batch = all_episodes[i:i + batch_size]` (src/services.py:97-98).  The fuel
is the list length, enough for any positive batch size. -/
def chunksGo (bs : Nat) : Nat → List EpisodeRef → List (List EpisodeRef)
  | 0, _ => []
  | _ + 1, [] => []
  | fuel + 1, x :: xs => (x :: xs).take bs :: chunksGo bs fuel ((x :: xs).drop bs)

/-- The contiguous batches the loop at src/services.py:97-98 iterates over. -/
def chunks (bs : Nat) (l : List EpisodeRef) : List (List EpisodeRef) :=
  chunksGo bs l.length l

/-- One flush: `tasks[task_id]["results"].extend(results)` followed by
`tasks[task_id]["processed"] += len(batch)` (src/services.py:100-101).
No await separates the two statements, so the flush is one atomic step. -/
def applyFlush (proc : EpisodeRef → OutcomeRecord) (s : JobState)
    (batch : List EpisodeRef) : JobState :=
  { s with results := some (s.results.getD [] ++ batch.map proc),
           processed := some (s.processed.getD 0 + batch.length) }

/-- `anime_title` as computed at src/services.py:44. -/
def animeTitleOf (details : Details) : String :=
  computeAnimeTitle (details.title.getD "Unknown")

/-- The `all_episodes` flattening loop (src/services.py:46-49). -/
def allEpisodesOf (details : Details) : List EpisodeRef :=
  (details.seasons.map Season.episodes).flatten

/-- The job-state snapshot after the metadata writes at src/services.py:45-55
(anime_title, total_episodes, processed = 0, results = []); no await
separates these writes, so they form one atomic block. -/
def metaStateOf (details : Details) : JobState :=
  { status := .processing,
    animeTitle := some (animeTitleOf details),
    totalEpisodes := some (allEpisodesOf details).length,
    processed := some 0,
    results := some [] }

/-- Job-state snapshots from the start of the batch loop to the end of the
task (src/services.py:97-110), one snapshot per atomic block between
suspension points / fallible operations: one per batch flush, one after
`status = "completed"`, and — when the snapshot persist (`open`/`json.dump`,
which sits inside the same `try`) raises — one for the `except` block that
sets `status = "failed"` and `error`. -/
def traceFrom (proc : EpisodeRef → OutcomeRecord) (persistResult : Except String Unit)
    (s : JobState) : List (List EpisodeRef) → List JobState
  | [] =>
      match persistResult with
      | .ok _ => [{ s with status := .completed }]
      | .error e => [{ s with status := .completed },
                     { s with status := .failed, error := some e }]
  | b :: rest =>
      applyFlush proc s b :: traceFrom proc persistResult (applyFlush proc s b) rest

/-- `scrape_all_episodes_task` (src/services.py:40-110) with the local
`batch_size` lifted to a parameter.  Returns the sequence of job-state
snapshots, one per atomic mutation block: the initial `pending` record
(created by the submit handler in src/main.py), the `processing` write, the
metadata block after `get_anime_details` succeeds (title, totals, empty
results — no await separates those writes), then the batch flushes and the
terminal writes.  `detailsResult` models `scraper.get_anime_details`
(value or raised exception), `persistResult` models the `open`/`json.dump`
snapshot write. -/
def scrapeTaskWith (batchSize : Nat)
    (detailsResult : Except String Details)
    (resolver : String → Except String (Option String))
    (transferer : String → String → Except String Bool)
    (persistResult : Except String Unit) : List JobState :=
  match detailsResult with
  | .error e =>
      [{ status := .pending }, { status := .processing },
       { status := .failed, error := some e }]
  | .ok details =>
      { status := .pending } :: { status := .processing } :: metaStateOf details ::
        traceFrom (processEpisode resolver transferer (animeTitleOf details))
          persistResult (metaStateOf details) (chunks batchSize (allEpisodesOf details))

/-- `scrape_all_episodes_task` as written: `batch_size = 5`
(src/services.py:58). -/
def scrapeTask (detailsResult : Except String Details)
    (resolver : String → Except String (Option String))
    (transferer : String → String → Except String Bool)
    (persistResult : Except String Unit) : List JobState :=
  scrapeTaskWith 5 detailsResult resolver transferer persistResult

/-- A concrete Episode Reference used by witnesses. -/
def epA : EpisodeRef := { season := "1", number := "2", url := "page2" }

/-! ### Lemmas about `_sanitize_filename` -/

lemma mem_foldl_removeChar {cs : List Char} {l : List Char} {x : Char}
    (h : x ∈ cs.foldl (fun acc c => removeChar c acc) l) : x ∈ l ∧ x ∉ cs := by
  induction cs generalizing l with
  | nil => simpa using h
  | cons c cs ih =>
    simp only [List.foldl_cons] at h
    obtain ⟨h1, h2⟩ := ih h
    simp only [removeChar, List.mem_filter, decide_eq_true_eq] at h1
    refine ⟨h1.1, ?_⟩
    simp only [List.mem_cons, not_or]
    exact ⟨h1.2, h2⟩

lemma foldl_removeChar_eq_self {cs l : List Char} (h : ∀ x ∈ l, x ∉ cs) :
    cs.foldl (fun acc c => removeChar c acc) l = l := by
  induction cs generalizing l with
  | nil => rfl
  | cons c cs ih =>
    simp only [List.foldl_cons]
    have hc : removeChar c l = l := by
      refine List.filter_eq_self.mpr (fun x hx => ?_)
      simp only [decide_eq_true_eq]
      exact fun heq => h x hx (by simp [heq])
    rw [hc]
    exact ih (fun x hx hmem => h x hx (List.mem_cons_of_mem _ hmem))

lemma mem_sanitizeChars {l : List Char} {x : Char} (h : x ∈ sanitizeChars l) :
    x ∈ l ∧ x ∉ badChars :=
  mem_foldl_removeChar h

lemma sanitizeChars_idem (l : List Char) :
    sanitizeChars (sanitizeChars l) = sanitizeChars l :=
  foldl_removeChar_eq_self (fun _ hx => (mem_sanitizeChars hx).2)

lemma not_bad_of_mem_sanitizeFilename {s : String} {x : Char}
    (hx : x ∈ (sanitizeFilename s).data) : x ∉ badChars :=
  (mem_foldl_removeChar (l := s.data) hx).2

lemma mem_pyStrip {s : String} {x : Char} (h : x ∈ (pyStrip s).data) : x ∈ s.data := by
  simp only [pyStrip, List.mem_reverse] at h
  have h1 : x ∈ (s.data.dropWhile pyIsSpace).reverse :=
    (List.dropWhile_sublist pyIsSpace).subset h
  rw [List.mem_reverse] at h1
  exact (List.dropWhile_sublist pyIsSpace).subset h1

lemma mem_computeAnimeTitle {t : String} {x : Char}
    (h : x ∈ (computeAnimeTitle t).data) :
    x ∈ t.data.map (fun c => if c = '/' then '-' else c) :=
  mem_pyStrip h

/-- C9: `_sanitize_filename` is idempotent — applying it to its own output
returns that output unchanged. -/
theorem sanitizeFilename_idem (s : String) :
    sanitizeFilename (sanitizeFilename s) = sanitizeFilename s :=
  congrArg String.mk (sanitizeChars_idem s.data)

/-- C4 counterexample: the claim says every generated path segment — in
particular the per-title directory — is free of the characters
`< > : " / \ | ? *`, the same rule as the filename.  But the per-title
directory is `details.title.replace("/", "-").strip()`
(src/services.py:44), embedded as `computeAnimeTitle`; it is never passed
through `_sanitize_filename`.  For the title "A<B" the per-title directory
segment (as used in `episodeFilePath`) still contains `<`. -/
theorem title_segment_not_sanitized :
    '<' ∈ (computeAnimeTitle "A<B").data ∧ '<' ∈ badChars ∧
      episodeFilePath (computeAnimeTitle "A<B") epA =
        "data/A<B/Season 1/AB - S1E2.mp4" := by
  exact ⟨by decide, by decide, by decide⟩

/-- C4 (amended): only the episode *filename* segment is sanitized with
`_sanitize_filename`, so it contains none of `< > : " / \ | ? *`; the
per-title directory merely has `/` replaced by `-` (and whitespace
stripped), so it contains no `/` but may retain the other characters; the
per-season directory is literally `"Season " + season`, unsanitized. -/
theorem path_segment_sanitization (title : String) (ep : EpisodeRef) :
    (∀ c ∈ badChars, c ∉ (episodeFilename (computeAnimeTitle title) ep).data)
    ∧ '/' ∉ (computeAnimeTitle title).data
    ∧ seasonDirOf ep = "Season " ++ ep.season := by
  refine ⟨fun c hc hmem => ?_, fun hmem => ?_, rfl⟩
  · simp only [episodeFilename] at hmem
    exact not_bad_of_mem_sanitizeFilename hmem hc
  · have h := mem_computeAnimeTitle hmem
    simp only [List.mem_map] at h
    obtain ⟨y, _, hy⟩ := h
    by_cases hy' : y = '/' <;> simp [hy'] at hy

/-- Witness for `path_segment_sanitization` at a concrete title and
episode reference. -/
theorem path_segment_sanitization_witness :
    '<' ∉ (episodeFilename (computeAnimeTitle "My Title") epA).data
    ∧ '/' ∉ (computeAnimeTitle "My Title").data :=
  ⟨(path_segment_sanitization "My Title" epA).1 '<' (by decide),
   (path_segment_sanitization "My Title" epA).2.1⟩

/-! ### Per-episode processing: C3, C5, C6 -/

/-- C3: for every Episode Reference and every behaviour of the Resolver and
Transferer — including either of them raising, modelled by the `.error`
cases of the oracles — `process_episode` returns an Outcome Record whose
status is one of downloaded / download_failed / failed / error.  The
embedding is a total function, mirroring that every code path of the
Python function returns a dict and the enclosing `try` converts any raise
into the error record. -/
lemma processEpisode_resolver_error
    {resolver : String → Except String (Option String)}
    {transferer : String → String → Except String Bool}
    {animeTitle : String} {ep : EpisodeRef} {e : String}
    (h : resolver ep.url = .error e) :
    processEpisode resolver transferer animeTitle ep =
      { season := ep.season, episode := ep.number, error := some e, status := "error" } := by
  unfold processEpisode
  rw [h]

lemma processEpisode_resolver_none
    {resolver : String → Except String (Option String)}
    {transferer : String → String → Except String Bool}
    {animeTitle : String} {ep : EpisodeRef}
    (h : resolver ep.url = .ok none) :
    processEpisode resolver transferer animeTitle ep =
      { season := ep.season, episode := ep.number,
        error := some "Video URL not found", status := "failed" } := by
  unfold processEpisode
  rw [h]

lemma processEpisode_transferer_error
    {resolver : String → Except String (Option String)}
    {transferer : String → String → Except String Bool}
    {animeTitle : String} {ep : EpisodeRef} {u e : String}
    (h1 : resolver ep.url = .ok (some u))
    (h2 : transferer u (episodeFilePath animeTitle ep) = .error e) :
    processEpisode resolver transferer animeTitle ep =
      { season := ep.season, episode := ep.number, error := some e, status := "error" } := by
  unfold processEpisode
  rw [h1]
  simp only [h2]

lemma processEpisode_transferer_ok
    {resolver : String → Except String (Option String)}
    {transferer : String → String → Except String Bool}
    {animeTitle : String} {ep : EpisodeRef} {u : String} {b : Bool}
    (h1 : resolver ep.url = .ok (some u))
    (h2 : transferer u (episodeFilePath animeTitle ep) = .ok b) :
    processEpisode resolver transferer animeTitle ep =
      { series := some animeTitle, season := ep.season, episode := ep.number,
        pageUrl := some ep.url, videoUrl := some u,
        filename := some (episodeFilename animeTitle ep),
        localPath := some (episodeFilePath animeTitle ep),
        status := if b then "downloaded" else "download_failed" } := by
  unfold processEpisode
  rw [h1]
  simp only [h2]

theorem processEpisode_status_enum
    (resolver : String → Except String (Option String))
    (transferer : String → String → Except String Bool)
    (animeTitle : String) (ep : EpisodeRef) :
    (processEpisode resolver transferer animeTitle ep).status = "downloaded"
    ∨ (processEpisode resolver transferer animeTitle ep).status = "download_failed"
    ∨ (processEpisode resolver transferer animeTitle ep).status = "failed"
    ∨ (processEpisode resolver transferer animeTitle ep).status = "error" := by
  rcases hr : resolver ep.url with e | u
  · rw [processEpisode_resolver_error hr]
    simp
  · rcases u with _ | u
    · rw [processEpisode_resolver_none hr]
      simp
    · rcases ht : transferer u (episodeFilePath animeTitle ep) with e | b
      · rw [processEpisode_transferer_error hr ht]
        simp
      · rw [processEpisode_transferer_ok hr ht]
        rcases b <;> simp

/-- C5 counterexample: the claim says every outcome — including failed and
error outcomes — carries `pageUrl` copied from the reference.  But the
`failed` branch of `process_episode` (src/services.py:64-69) returns only
season / episode / error / status: for a Resolver that finds no media URL
the outcome has no `pageUrl` key. -/
theorem outcome_pageUrl_counterexample :
    (processEpisode (fun _ => .ok none) (fun _ _ => .ok true) "T" epA).status = "failed"
    ∧ (processEpisode (fun _ => .ok none) (fun _ _ => .ok true) "T" epA).pageUrl = none := by
  constructor <;> rfl

/-- C5 (amended): every outcome carries `season` and `number` copied from
the reference; when the status is downloaded or download_failed the record
additionally carries `pageUrl`, `mediaUrl` (video_url), `localPath` and
`filename`; failed and error outcomes carry only season, number,
errorMessage and status — in particular no `pageUrl`. -/
theorem outcome_record_fields
    (resolver : String → Except String (Option String))
    (transferer : String → String → Except String Bool)
    (animeTitle : String) (ep : EpisodeRef) :
    (processEpisode resolver transferer animeTitle ep).season = ep.season
    ∧ (processEpisode resolver transferer animeTitle ep).episode = ep.number
    ∧ (((processEpisode resolver transferer animeTitle ep).status = "downloaded"
        ∨ (processEpisode resolver transferer animeTitle ep).status = "download_failed") →
        (processEpisode resolver transferer animeTitle ep).pageUrl = some ep.url
        ∧ (processEpisode resolver transferer animeTitle ep).videoUrl.isSome
        ∧ (processEpisode resolver transferer animeTitle ep).localPath
            = some (episodeFilePath animeTitle ep)
        ∧ (processEpisode resolver transferer animeTitle ep).filename
            = some (episodeFilename animeTitle ep))
    ∧ (((processEpisode resolver transferer animeTitle ep).status = "failed"
        ∨ (processEpisode resolver transferer animeTitle ep).status = "error") →
        (processEpisode resolver transferer animeTitle ep).pageUrl = none) := by
  rcases hr : resolver ep.url with e | u
  · rw [processEpisode_resolver_error hr]
    refine ⟨rfl, rfl, ?_, fun _ => rfl⟩
    rintro (h | h) <;> simp at h
  · rcases u with _ | u
    · rw [processEpisode_resolver_none hr]
      refine ⟨rfl, rfl, ?_, fun _ => rfl⟩
      rintro (h | h) <;> simp at h
    · rcases ht : transferer u (episodeFilePath animeTitle ep) with e | b
      · rw [processEpisode_transferer_error hr ht]
        refine ⟨rfl, rfl, ?_, fun _ => rfl⟩
        rintro (h | h) <;> simp at h
      · rw [processEpisode_transferer_ok hr ht]
        refine ⟨rfl, rfl, fun _ => ⟨rfl, rfl, rfl, rfl⟩, ?_⟩
        rcases b <;> rintro (h | h) <;> simp at h

/-- Witness for `outcome_record_fields`: a run whose Transferer succeeds
yields a downloaded record with all attempt fields populated. -/
theorem outcome_record_fields_witness :
    (processEpisode (fun _ => .ok (some "video")) (fun _ _ => .ok true) "T" epA).pageUrl
      = some epA.url
    ∧ (processEpisode (fun _ => .ok (some "video")) (fun _ _ => .ok true) "T" epA).season
      = epA.season :=
  ⟨((outcome_record_fields (fun _ => .ok (some "video")) (fun _ _ => .ok true) "T" epA).2.2.1
      (Or.inl (by rfl))).1,
   (outcome_record_fields (fun _ => .ok (some "video")) (fun _ _ => .ok true) "T" epA).1⟩

/-- C6: the exact status mapping of `process_episode`: a Resolver raise
gives the error record with `errorMessage` the exception's description; a
Resolver returning no URL gives the failed record with
"Video URL not found"; with a media URL, Transferer success true/false
gives downloaded/download_failed. -/
theorem processEpisode_status_mapping
    (resolver : String → Except String (Option String))
    (transferer : String → String → Except String Bool)
    (animeTitle : String) (ep : EpisodeRef) :
    (∀ e, resolver ep.url = .error e →
        processEpisode resolver transferer animeTitle ep =
          { season := ep.season, episode := ep.number, error := some e, status := "error" })
    ∧ (resolver ep.url = .ok none →
        processEpisode resolver transferer animeTitle ep =
          { season := ep.season, episode := ep.number,
            error := some "Video URL not found", status := "failed" })
    ∧ (∀ u, resolver ep.url = .ok (some u) →
        transferer u (episodeFilePath animeTitle ep) = .ok true →
        (processEpisode resolver transferer animeTitle ep).status = "downloaded")
    ∧ (∀ u, resolver ep.url = .ok (some u) →
        transferer u (episodeFilePath animeTitle ep) = .ok false →
        (processEpisode resolver transferer animeTitle ep).status = "download_failed") := by
  refine ⟨fun e he => ?_, fun hn => ?_, fun u hu ht => ?_, fun u hu ht => ?_⟩
  · exact processEpisode_resolver_error he
  · exact processEpisode_resolver_none hn
  · rw [processEpisode_transferer_ok hu ht]
    rfl
  · rw [processEpisode_transferer_ok hu ht]
    rfl

/-- Witness for `processEpisode_status_mapping`, discharging each of the
four hypotheses at concrete oracles. -/
theorem processEpisode_status_mapping_witness :
    processEpisode (fun _ => .error "boom") (fun _ _ => .ok true) "T" epA =
      { season := epA.season, episode := epA.number, error := some "boom", status := "error" }
    ∧ processEpisode (fun _ => .ok none) (fun _ _ => .ok true) "T" epA =
      { season := epA.season, episode := epA.number,
        error := some "Video URL not found", status := "failed" }
    ∧ (processEpisode (fun _ => .ok (some "v")) (fun _ _ => .ok true) "T" epA).status
      = "downloaded"
    ∧ (processEpisode (fun _ => .ok (some "v")) (fun _ _ => .ok false) "T" epA).status
      = "download_failed" :=
  ⟨(processEpisode_status_mapping (fun _ => .error "boom") (fun _ _ => .ok true) "T" epA).1
      "boom" rfl,
   (processEpisode_status_mapping (fun _ => .ok none) (fun _ _ => .ok true) "T" epA).2.1 rfl,
   (processEpisode_status_mapping (fun _ => .ok (some "v")) (fun _ _ => .ok true) "T" epA).2.2.1
      "v" rfl rfl,
   (processEpisode_status_mapping (fun _ => .ok (some "v")) (fun _ _ => .ok false) "T"
      epA).2.2.2 "v" rfl rfl⟩

/-! ### Job lifecycle: C1, C2, C8 -/

/-- A Resolver that finds no media URL, for concrete runs. -/
def resolverNone : String → Except String (Option String) := fun _ => .ok none

/-- A Transferer that always succeeds, for concrete runs. -/
def transfererTrue : String → String → Except String Bool := fun _ _ => .ok true

/-- The status-transition discipline asserted by the spec: pending steps
only to processing, processing to any non-pending status, and completed
and failed snapshots have no successor at all. -/
def specStep (a b : JobState) : Prop :=
  (a.status = .pending ∧ b.status = .processing)
  ∨ (a.status = .processing ∧ b.status ≠ .pending)

instance (a b : JobState) : Decidable (specStep a b) :=
  inferInstanceAs (Decidable
    ((a.status = .pending ∧ b.status = .processing)
      ∨ (a.status = .processing ∧ b.status ≠ .pending)))

/-- The transitions the code actually makes: as `specStep`, plus exactly
one extra edge — a completed snapshot may be followed by the
`except`-block snapshot marking the job failed with an error message (the
path where persisting the completion snapshot raises).  A failed snapshot
still has no successor. -/
def allowedStep (a b : JobState) : Prop :=
  (a.status = .pending ∧ b.status = .processing)
  ∨ (a.status = .processing ∧ b.status ≠ .pending)
  ∨ (a.status = .completed ∧ ∃ e, b = { a with status := .failed, error := some e })

lemma applyFlush_status (proc : EpisodeRef → OutcomeRecord) (s : JobState)
    (b : List EpisodeRef) : (applyFlush proc s b).status = s.status := rfl

lemma traceFrom_ne_nil (proc : EpisodeRef → OutcomeRecord)
    (p : Except String Unit) (s : JobState) (bs : List (List EpisodeRef)) :
    traceFrom proc p s bs ≠ [] := by
  cases bs with
  | nil => rcases p with e | u <;> simp [traceFrom]
  | cons b rest => simp [traceFrom]

lemma chain'_allowedStep_traceFrom (proc : EpisodeRef → OutcomeRecord)
    (p : Except String Unit) {s : JobState} (hs : s.status = .processing)
    (bs : List (List EpisodeRef)) :
    List.Chain' allowedStep (s :: traceFrom proc p s bs) := by
  induction bs generalizing s with
  | nil =>
    rcases p with e | u
    · refine List.Chain'.cons ?_ (List.Chain'.cons ?_ (List.chain'_singleton _))
      · exact Or.inr (Or.inl ⟨hs, by simp⟩)
      · exact Or.inr (Or.inr ⟨rfl, e, rfl⟩)
    · exact List.Chain'.cons (Or.inr (Or.inl ⟨hs, by simp⟩)) (List.chain'_singleton _)
  | cons b rest ih =>
    refine List.Chain'.cons ?_ (ih (s := applyFlush proc s b) hs)
    exact Or.inr (Or.inl ⟨hs, by rw [applyFlush_status, hs]; simp⟩)

lemma traceFrom_persist_ok_dropLast (proc : EpisodeRef → OutcomeRecord)
    {s : JobState} (hs : s.status = .processing) (bs : List (List EpisodeRef)) :
    ∀ x ∈ (traceFrom proc (.ok ()) s bs).dropLast, x.status = .processing := by
  induction bs generalizing s with
  | nil => simp [traceFrom]
  | cons b rest ih =>
    rw [traceFrom, List.dropLast_cons_of_ne_nil (traceFrom_ne_nil _ _ _ _)]
    intro x hx
    rcases List.mem_cons.mp hx with rfl | hx
    · rw [applyFlush_status]; exact hs
    · exact ih (s := applyFlush proc s b) hs x hx

/-- C1 counterexample: the claim says the status never moves on from
completed — "a job whose status has been set to completed is never later
set to failed, even if persisting the completion snapshot raises an
error".  But `open`/`json.dump` sit inside the same `try` whose `except`
sets `status = "failed"` (src/services.py:103-110): on a run whose detail
resolution succeeds (here with an empty episode list) and whose snapshot
persist raises, the snapshot sequence sets completed and then failed. -/
theorem completed_then_failed_counterexample :
    ¬ List.Chain' specStep
        (scrapeTask (.ok { title := some "T" }) resolverNone transfererTrue
          (.error "disk full")) := by
  intro h
  have h1 := (List.chain'_cons.mp h).2
  have h2 := (List.chain'_cons.mp h1).2
  have h3 := (List.chain'_cons.mp h2).2
  have hstep := (List.chain'_cons.mp h3).1
  rcases hstep with ⟨ha, _⟩ | ⟨ha, _⟩ <;> simp [metaStateOf] at ha

/-- C1 (amended): the status moves only along pending → processing →
{completed | failed} and never regresses; a failed snapshot is never
mutated further; a completed snapshot is never mutated further *except*
when persisting the completion snapshot raises, in which case the one
further mutation sets status = failed and errorMessage to the raise's
description.  When the persist succeeds, no snapshot before the last one
is completed. -/
theorem job_status_lifecycle
    (d : Except String Details)
    (r : String → Except String (Option String))
    (t : String → String → Except String Bool)
    (p : Except String Unit) :
    List.Chain' allowedStep (scrapeTask d r t p)
    ∧ (p = .ok () →
        ∀ x ∈ (scrapeTask d r t p).dropLast, x.status ≠ .completed) := by
  constructor
  · rcases d with e | details
    · refine List.Chain'.cons (Or.inl ⟨rfl, rfl⟩) ?_
      exact List.Chain'.cons (Or.inr (Or.inl ⟨rfl, by simp⟩)) (List.chain'_singleton _)
    · refine List.Chain'.cons (Or.inl ⟨rfl, rfl⟩) ?_
      refine List.Chain'.cons (Or.inr (Or.inl ⟨rfl, by simp [metaStateOf]⟩)) ?_
      exact chain'_allowedStep_traceFrom _ _ (s := metaStateOf details) rfl _
  · rintro rfl x hx
    rcases d with e | details
    · rw [show scrapeTask (.error e) r t (.ok ()) =
            [{ status := .pending }, { status := .processing },
             { status := .failed, error := some e }] from rfl] at hx
      rcases List.mem_cons.mp hx with rfl | hx
      · simp
      · rcases List.mem_cons.mp hx with rfl | hx
        · simp
        · simp at hx
    · rw [show scrapeTask (.ok details) r t (.ok ()) =
            { status := .pending } :: { status := .processing } :: metaStateOf details ::
              traceFrom (processEpisode r t (animeTitleOf details)) (.ok ())
                (metaStateOf details) (chunks 5 (allEpisodesOf details)) from rfl,
          List.dropLast_cons_of_ne_nil (by simp),
          List.dropLast_cons_of_ne_nil (by simp),
          List.dropLast_cons_of_ne_nil (traceFrom_ne_nil _ _ _ _)] at hx
      rcases List.mem_cons.mp hx with rfl | hx
      · simp
      · rcases List.mem_cons.mp hx with rfl | hx
        · simp
        · rcases List.mem_cons.mp hx with rfl | hx
          · simp [metaStateOf]
          · rw [traceFrom_persist_ok_dropLast _ rfl _ x hx]
            simp

/-- Witness for `job_status_lifecycle` on a concrete successful run,
discharging the persist-succeeds hypothesis. -/
theorem job_status_lifecycle_witness :
    List.Chain' allowedStep
      (scrapeTask (.ok { title := some "T" }) resolverNone transfererTrue (.ok ()))
    ∧ (({ status := Status.pending } : JobState) ∈
        (scrapeTask (.ok { title := some "T" }) resolverNone transfererTrue
          (.ok ())).dropLast →
        ({ status := Status.pending } : JobState).status ≠ .completed) :=
  ⟨(job_status_lifecycle (.ok { title := some "T" }) resolverNone transfererTrue (.ok ())).1,
   fun hm =>
     (job_status_lifecycle (.ok { title := some "T" }) resolverNone transfererTrue
       (.ok ())).2 rfl _ hm⟩

/-- The aggregate-monotonicity relation between successive snapshots: the
processed counter and the length of the result list never decrease. -/
def countersMono (a b : JobState) : Prop :=
  a.processed.getD 0 ≤ b.processed.getD 0
  ∧ (a.results.getD []).length ≤ (b.results.getD []).length

lemma applyFlush_counts {proc : EpisodeRef → OutcomeRecord} {s : JobState}
    {b : List EpisodeRef} (hc : s.processed = s.results.map List.length) :
    (applyFlush proc s b).processed = (applyFlush proc s b).results.map List.length := by
  rcases hres : s.results with _ | rs <;> rw [hres] at hc <;>
    simp [applyFlush, hres, hc]

lemma traceFrom_counts {proc : EpisodeRef → OutcomeRecord} {p : Except String Unit}
    {s : JobState} {bs : List (List EpisodeRef)}
    (hc : s.processed = s.results.map List.length) :
    ∀ x ∈ traceFrom proc p s bs, x.processed = x.results.map List.length := by
  induction bs generalizing s with
  | nil =>
    intro x hx
    rcases p with e | u
    · rcases List.mem_cons.mp hx with rfl | hx
      · exact hc
      · rcases List.mem_cons.mp hx with rfl | hx
        · exact hc
        · simp at hx
    · rcases List.mem_cons.mp hx with rfl | hx
      · exact hc
      · simp at hx
  | cons b rest ih =>
    intro x hx
    rcases List.mem_cons.mp hx with rfl | hx
    · exact applyFlush_counts hc
    · exact ih (applyFlush_counts hc) x hx

lemma chain'_countersMono_traceFrom (proc : EpisodeRef → OutcomeRecord)
    (p : Except String Unit) (s : JobState) (bs : List (List EpisodeRef)) :
    List.Chain' countersMono (s :: traceFrom proc p s bs) := by
  induction bs generalizing s with
  | nil =>
    rcases p with e | u
    · exact List.Chain'.cons ⟨le_refl _, le_refl _⟩
        (List.Chain'.cons ⟨le_refl _, le_refl _⟩ (List.chain'_singleton _))
    · exact List.Chain'.cons ⟨le_refl _, le_refl _⟩ (List.chain'_singleton _)
  | cons b rest ih =>
    refine List.Chain'.cons ⟨?_, ?_⟩ (ih (applyFlush proc s b))
    · simp only [applyFlush, Option.getD_some]
      exact Nat.le_add_right _ _
    · simp only [applyFlush, Option.getD_some, List.length_append]
      exact Nat.le_add_right _ _

/-- C2: at every snapshot the processed counter equals the number of
outcome records in the result list (both absent before the metadata
block — the keys are written together with `processed = 0`, `results = []`
at src/services.py:54-55), and along the whole run both the counter and
the record-list length are monotonically non-decreasing. -/
theorem processed_equals_results
    (d : Except String Details)
    (r : String → Except String (Option String))
    (t : String → String → Except String Bool)
    (p : Except String Unit) :
    (∀ x ∈ scrapeTask d r t p, x.processed = x.results.map List.length)
    ∧ List.Chain' countersMono (scrapeTask d r t p) := by
  constructor
  · intro x hx
    rcases d with e | details
    · rcases List.mem_cons.mp hx with rfl | hx
      · rfl
      · rcases List.mem_cons.mp hx with rfl | hx
        · rfl
        · rcases List.mem_cons.mp hx with rfl | hx
          · rfl
          · simp at hx
    · rcases List.mem_cons.mp hx with rfl | hx
      · rfl
      · rcases List.mem_cons.mp hx with rfl | hx
        · rfl
        · rcases List.mem_cons.mp hx with rfl | hx
          · rfl
          · exact traceFrom_counts rfl x hx
  · rcases d with e | details
    · exact List.Chain'.cons ⟨le_refl _, le_refl _⟩
        (List.Chain'.cons ⟨le_refl _, le_refl _⟩ (List.chain'_singleton _))
    · refine List.Chain'.cons ⟨le_refl _, le_refl _⟩ ?_
      refine List.Chain'.cons ⟨le_refl _, le_refl _⟩ ?_
      exact chain'_countersMono_traceFrom _ _ (metaStateOf details) _

/-- Witness for `processed_equals_results` on a concrete run, discharging
the membership hypothesis at the initial pending snapshot. -/
theorem processed_equals_results_witness :
    ({ status := Status.pending } : JobState).processed =
      ({ status := Status.pending } : JobState).results.map List.length
    ∧ List.Chain' countersMono
        (scrapeTask (.ok { title := some "T" }) resolverNone transfererTrue (.ok ())) :=
  ⟨(processed_equals_results (.ok { title := some "T" }) resolverNone transfererTrue
      (.ok ())).1 _ (List.mem_cons_self _ _),
   (processed_equals_results (.ok { title := some "T" }) resolverNone transfererTrue
      (.ok ())).2⟩

/-- C8 counterexample: the claim asserts a *non-empty* errorMessage when
detail resolution raises, but the code stores `str(e)`
(src/services.py:110) and a Python exception's description can be the
empty string (e.g. `Exception()`).  On such a run the final snapshot's
error field holds `""`. -/
theorem details_failure_empty_error :
    (scrapeTask (.error "") resolverNone transfererTrue (.ok ())).getLast? =
      some { status := Status.failed, error := some "" }
    ∧ ("" : String).isEmpty = true :=
  ⟨rfl, rfl⟩

/-- C8 (amended): when the Details Resolver raises with description `e`,
the job's snapshots are exactly pending, processing, and a final failed
snapshot whose errorMessage is `e` (possibly empty); no results list is
ever created (zero outcome records) and no per-episode processing or
flush occurs. -/
theorem details_failure_behaviour (e : String)
    (r : String → Except String (Option String))
    (t : String → String → Except String Bool)
    (p : Except String Unit) :
    scrapeTask (.error e) r t p =
      [{ status := .pending }, { status := .processing },
       { status := .failed, error := some e }] := rfl

/-! ### The batching scheduler: C7 -/

lemma chunksGo_nil (bs fuel : Nat) : chunksGo bs fuel [] = [] := by
  cases fuel <;> rfl

lemma chunksGo_flatten {bs : Nat} (hbs : 0 < bs) :
    ∀ (fuel : Nat) (l : List EpisodeRef), l.length ≤ fuel →
      (chunksGo bs fuel l).flatten = l := by
  intro fuel
  induction fuel with
  | zero =>
    intro l hl
    rw [List.eq_nil_of_length_eq_zero (Nat.le_zero.mp hl)]
    rfl
  | succ n ih =>
    intro l hl
    cases l with
    | nil => rfl
    | cons x xs =>
      rw [chunksGo, List.flatten_cons, ih _ ?_, List.take_append_drop]
      simp only [List.length_drop, List.length_cons]
      simp only [List.length_cons] at hl
      omega

lemma chunks_flatten {bs : Nat} (hbs : 0 < bs) (l : List EpisodeRef) :
    (chunks bs l).flatten = l :=
  chunksGo_flatten hbs _ l le_rfl

lemma chunksGo_dropLast_length {bs : Nat} (hbs : 0 < bs) :
    ∀ (fuel : Nat) (l : List EpisodeRef), l.length ≤ fuel →
      ∀ b ∈ (chunksGo bs fuel l).dropLast, b.length = bs := by
  intro fuel
  induction fuel with
  | zero =>
    intro l hl
    rw [List.eq_nil_of_length_eq_zero (Nat.le_zero.mp hl)]
    simp [chunksGo]
  | succ n ih =>
    intro l hl
    cases l with
    | nil => simp [chunksGo]
    | cons x xs =>
      rw [chunksGo]
      by_cases hrest : chunksGo bs n ((x :: xs).drop bs) = []
      · rw [hrest]
        simp
      · rw [List.dropLast_cons_of_ne_nil hrest]
        intro b hb
        rcases List.mem_cons.mp hb with rfl | hb
        · have hdrop : (x :: xs).drop bs ≠ [] := by
            intro hd
            exact hrest (by rw [hd]; exact chunksGo_nil _ _)
          have hlen : bs < (x :: xs).length := by
            have := List.length_drop bs (x :: xs)
            rcases Nat.lt_or_ge bs (x :: xs).length with h | h
            · exact h
            · exact absurd (List.drop_eq_nil_of_le h) hdrop
          rw [List.length_take]
          omega
        · refine ih _ ?_ b hb
          simp only [List.length_drop, List.length_cons]
          simp only [List.length_cons] at hl
          omega

lemma chunksGo_length_le (bs : Nat) :
    ∀ (fuel : Nat) (l : List EpisodeRef), ∀ b ∈ chunksGo bs fuel l, b.length ≤ bs := by
  intro fuel
  induction fuel with
  | zero => intro l b hb; simp [chunksGo] at hb
  | succ n ih =>
    intro l b hb
    cases l with
    | nil => simp [chunksGo] at hb
    | cons x xs =>
      rw [chunksGo] at hb
      rcases List.mem_cons.mp hb with rfl | hb
      · rw [List.length_take]
        exact Nat.min_le_left _ _
      · exact ih _ b hb

/-- C7: the batching loop partitions the episode list into contiguous
batches of `batch_size` (only the last possibly shorter), each flush
appends the batch's outcomes and bumps the processed counter by the batch
length in one atomic step, and — instantiating the loop at batch size 2
over any five references — the flushes have sizes 2, 2, 1 and the
processed counter takes exactly the values 0, 2, 4, 5 in order
(`destutter` collapses the consecutive snapshots in which the counter is
not written). -/
theorem scheduler_batching :
    (∀ (bs : Nat) (l : List EpisodeRef), 0 < bs →
        (chunks bs l).flatten = l
        ∧ (∀ b ∈ (chunks bs l).dropLast, b.length = bs)
        ∧ (∀ b ∈ chunks bs l, b.length ≤ bs))
    ∧ (∀ (proc : EpisodeRef → OutcomeRecord) (p : Except String Unit)
          (s : JobState) (batch : List EpisodeRef) (rest : List (List EpisodeRef)),
        traceFrom proc p s (batch :: rest) =
          { s with results := some (s.results.getD [] ++ batch.map proc),
                   processed := some (s.processed.getD 0 + batch.length) }
            :: traceFrom proc p
                { s with results := some (s.results.getD [] ++ batch.map proc),
                         processed := some (s.processed.getD 0 + batch.length) } rest)
    ∧ (∀ (ti : String) (r : String → Except String (Option String))
          (t : String → String → Except String Bool) (refs : List EpisodeRef),
        refs.length = 5 →
        (chunks 2 refs).map List.length = [2, 2, 1]
        ∧ ((scrapeTaskWith 2 (.ok { title := some ti, seasons := [{ episodes := refs }] })
              r t (.ok ())).filterMap JobState.processed).destutter (· ≠ ·)
            = [0, 2, 4, 5]) := by
  refine ⟨fun bs l hbs => ⟨chunks_flatten hbs l, chunksGo_dropLast_length hbs _ l le_rfl,
      chunksGo_length_le bs _ l⟩, fun proc p s batch rest => rfl, ?_⟩
  intro ti r t refs h5
  rcases refs with _ | ⟨a, refs⟩
  · simp at h5
  rcases refs with _ | ⟨b, refs⟩
  · simp at h5
  rcases refs with _ | ⟨c, refs⟩
  · simp at h5
  rcases refs with _ | ⟨d, refs⟩
  · simp at h5
  rcases refs with _ | ⟨e, refs⟩
  · simp at h5
  rcases refs with _ | ⟨f, refs⟩
  · exact ⟨rfl, rfl⟩
  · simp at h5

/-- Five concrete Episode References for witnesses. -/
def refsFive : List EpisodeRef :=
  [{ season := "1", number := "1", url := "u1" },
   { season := "1", number := "2", url := "u2" },
   { season := "1", number := "3", url := "u3" },
   { season := "1", number := "4", url := "u4" },
   { season := "1", number := "5", url := "u5" }]

/-- Witness for `scheduler_batching`, discharging the positivity,
length-five and batch-membership hypotheses at concrete inputs. -/
theorem scheduler_batching_witness :
    (chunks 2 refsFive).flatten = refsFive
    ∧ ([{ season := "1", number := "1", url := "u1" },
        { season := "1", number := "2", url := "u2" }] : List EpisodeRef).length = 2
    ∧ (chunks 2 refsFive).map List.length = [2, 2, 1]
    ∧ ((scrapeTaskWith 2 (.ok { title := some "T", seasons := [{ episodes := refsFive }] })
          resolverNone transfererTrue (.ok ())).filterMap JobState.processed).destutter (· ≠ ·)
        = [0, 2, 4, 5] :=
  ⟨(scheduler_batching.1 2 refsFive (by decide)).1,
   (scheduler_batching.1 2 refsFive (by decide)).2.1 _ (by decide),
   (scheduler_batching.2.2 "T" resolverNone transfererTrue refsFive rfl).1,
   (scheduler_batching.2.2 "T" resolverNone transfererTrue refsFive rfl).2⟩

/-! ### The Transferer: C10 -/

/-- `download_file` (src/services.py:15-31).  `mkdirsResult` models
`os.makedirs(os.path.dirname(filepath), exist_ok=True)` (it can raise,
e.g. when the dirname is empty); `respResult` models
`session.get(url)` — either a raised exception or a pair of the HTTP
status and the successive non-empty chunks `response.content.read`
yields; `writeFailAt = some i` models an exception raised while writing
the i-th chunk (the chunks before it are already on disk); `fs` is the
filesystem, an association list from path to byte content.  Every raise
is caught by the function's own `try`, which prints and returns `False`;
correspondingly this embedding is total and returns the flag plus the
updated filesystem. -/
def downloadFile (mkdirsResult : Except String Unit)
    (respResult : Except String (Nat × List (List Nat)))
    (writeFailAt : Option Nat)
    (fs : List (String × List Nat)) (url filepath : String) :
    Bool × List (String × List Nat) :=
  match mkdirsResult with
  | .error _ => (false, fs)
  | .ok _ =>
    match respResult with
    | .error _ => (false, fs)
    | .ok (status, body) =>
      if status ≠ 200 then (false, fs)
      else
        match writeFailAt with
        | some i =>
            if i < body.length then (false, (filepath, (body.take i).flatten) :: fs)
            else (true, (filepath, body.flatten) :: fs)
        | none => (true, (filepath, body.flatten) :: fs)

/-- C10: `download_file` returns a boolean and never raises (the embedding
is total); it returns False when `os.makedirs` raises, when the request
raises, when the HTTP status is not 200, or when a chunk write raises;
and it returns True only when the status was 200 and every chunk was
written, in which case the destination file holds the full response
body. -/
theorem downloadFile_contract
    (m : Except String Unit) (resp : Except String (Nat × List (List Nat)))
    (w : Option Nat) (fs : List (String × List Nat)) (url filepath : String) :
    (∀ e, m = .error e → (downloadFile m resp w fs url filepath).1 = false)
    ∧ (∀ e, resp = .error e → (downloadFile m resp w fs url filepath).1 = false)
    ∧ (∀ st body, resp = .ok (st, body) → st ≠ 200 →
        (downloadFile m resp w fs url filepath).1 = false)
    ∧ (∀ i st body, resp = .ok (st, body) → w = some i → i < body.length →
        (downloadFile m resp w fs url filepath).1 = false)
    ∧ ((downloadFile m resp w fs url filepath).1 = true →
        ∃ body, resp = .ok (200, body)
          ∧ (downloadFile m resp w fs url filepath).2.lookup filepath
              = some body.flatten) := by
  refine ⟨?_, ?_, ?_, ?_, ?_⟩
  · rintro e rfl
    rfl
  · rintro e rfl
    rcases m with e' | u <;> rfl
  · rintro st body rfl hst
    rcases m with e' | u
    · rfl
    · simp [downloadFile, hst]
  · rintro i st body rfl rfl hi
    rcases m with e' | u
    · rfl
    · by_cases h200 : st = 200 <;> simp [downloadFile, h200, hi]
  · intro h
    rcases m with e' | u
    · simp [downloadFile] at h
    · rcases hresp : resp with e' | ⟨st, body⟩
      · rw [hresp] at h
        simp [downloadFile] at h
      · rw [hresp] at h
        by_cases h200 : st = 200
        · subst h200
          refine ⟨body, rfl, ?_⟩
          rcases w with _ | i
          · simp [downloadFile, List.lookup]
          · by_cases hi : i < body.length
            · simp [downloadFile, hi] at h
            · simp [downloadFile, hi, List.lookup]
        · simp [downloadFile, h200] at h

/-- Witness for `downloadFile_contract`, discharging each hypothesis at
concrete inputs: a makedirs failure, a request failure, a non-200 status,
a failing chunk write, and a fully successful transfer. -/
theorem downloadFile_contract_witness :
    (downloadFile (.error "no parent dir") (.ok (200, [[1]])) none [] "u" "f").1 = false
    ∧ (downloadFile (.ok ()) (.error "timeout") none [] "u" "f").1 = false
    ∧ (downloadFile (.ok ()) (.ok (404, [[1]])) none [] "u" "f").1 = false
    ∧ (downloadFile (.ok ()) (.ok (200, [[1], [2]])) (some 0) [] "u" "f").1 = false
    ∧ ∃ body, (Except.ok (200, [[1, 2], [3]]) : Except String (Nat × List (List Nat)))
          = .ok (200, body)
        ∧ (downloadFile (.ok ()) (.ok (200, [[1, 2], [3]])) none [] "u" "f").2.lookup "f"
            = some body.flatten :=
  ⟨(downloadFile_contract (.error "no parent dir") (.ok (200, [[1]])) none [] "u" "f").1
      "no parent dir" rfl,
   (downloadFile_contract (.ok ()) (.error "timeout") none [] "u" "f").2.1 "timeout" rfl,
   (downloadFile_contract (.ok ()) (.ok (404, [[1]])) none [] "u" "f").2.2.1 404 [[1]]
      rfl (by decide),
   (downloadFile_contract (.ok ()) (.ok (200, [[1], [2]])) (some 0) [] "u" "f").2.2.2.1
      0 200 [[1], [2]] rfl rfl (by decide),
   (downloadFile_contract (.ok ()) (.ok (200, [[1, 2], [3]])) none [] "u" "f").2.2.2.2 rfl⟩

end Animecix
